import Mathlib

/-!
Shallow embedding of the web event-loop window target
(src/platform_impl/web/event_loop/window_target.rs).

Each closure installed by `WindowTarget::register` is embedded as a pure
function from the raw notification parameters (and a snapshot of the backend
environment it observes) to the ordered list of calls it makes, in source
order.  The per-window mutable `intended_size` captured by the
fullscreen-change closure is threaded explicitly as state.
-/

namespace Winit

/-- crate::dpi::PhysicalSize with u32 fields (width, height). -/
structure PhysicalSize where
  width : Nat
  height : Nat
deriving DecidableEq, Repr

/-- Logical size in abstract (rational) coordinates, standing for the f64
logical size returned by the backend. -/
structure LogicalSize where
  width : Rat
  height : Rat
deriving DecidableEq, Repr

/-- Modelled from the spec: crate::dpi logical-to-physical conversion (the
dpi module is not under src/); a logical size is converted through the
current scale factor by multiplying and rounding each coordinate. -/
def LogicalSize.to_physical (s : LogicalSize) (scale_factor : Rat) : PhysicalSize :=
  { width := (round (s.width * scale_factor)).toNat,
    height := (round (s.height * scale_factor)).toNat }

/-- Modelled from the spec: modifier-key state (crate::event::ModifiersState
is not under src/); a record of which modifier keys are held. -/
structure ModifiersState where
  shift : Bool
  ctrl : Bool
  alt : Bool
  logo : Bool
deriving DecidableEq, Repr

/-- crate::event::ElementState. -/
inductive ElementState where
  | Pressed
  | Released
deriving DecidableEq, Repr

/-- crate::event::TouchPhase. -/
inductive TouchPhase where
  | Started
  | Moved
  | Ended
  | Cancelled
deriving DecidableEq, Repr

/-- crate::event::MouseButton. -/
inductive MouseButton where
  | Left
  | Right
  | Middle
  | Other (code : Nat)
deriving DecidableEq, Repr

/-- Physical cursor position, in abstract (rational) coordinates. -/
structure PhysicalPosition where
  x : Rat
  y : Rat
deriving DecidableEq, Repr

/-- crate::event::MouseScrollDelta. -/
inductive MouseScrollDelta where
  | LineDelta (x y : Rat)
  | PixelDelta (pos : PhysicalPosition)
deriving DecidableEq, Repr

/-- Modelled from the spec: the platform device id (web device::Id is not
under src/).  The spec requires a sentinel "unknown device" value, reused
across events, that compares unequal to every real (pointer-derived) id, so
the sentinel is a dedicated constructor. -/
inductive DeviceCoreId where
  | dummy
  | pointer (pointer_id : Int)
deriving DecidableEq, Repr

/-- crate::event::DeviceId, wrapping the platform device id. -/
structure DeviceId where
  id : DeviceCoreId
deriving DecidableEq, Repr

/-- crate::window::WindowId, wrapping the numeric id issued at registration
(window::Id wraps the runner-generated number). -/
structure WindowId where
  val : Nat
deriving DecidableEq, Repr

/-- Virtual keycode, kept abstract as a numeric code. -/
abbrev VirtualKeyCode := Nat

/-- crate::event::KeyboardInput. -/
structure KeyboardInput where
  scancode : Nat
  state : ElementState
  virtual_keycode : Option VirtualKeyCode
  modifiers : ModifiersState
deriving DecidableEq, Repr

/-- crate::event::WindowEvent (the constructors this file emits). -/
inductive WindowEvent where
  | Focused (focused : Bool)
  | KeyboardInput (device_id : DeviceId) (input : Winit.KeyboardInput) (is_synthetic : Bool)
  | ReceivedCharacter (c : Char)
  | CursorLeft (device_id : DeviceId)
  | CursorEntered (device_id : DeviceId)
  | CursorMoved (device_id : DeviceId) (position : PhysicalPosition) (modifiers : ModifiersState)
  | MouseInput (device_id : DeviceId) (state : ElementState) (button : MouseButton)
      (modifiers : ModifiersState)
  | MouseWheel (device_id : DeviceId) (delta : MouseScrollDelta) (phase : TouchPhase)
      (modifiers : ModifiersState)
  | Resized (size : PhysicalSize)
  | ScaleFactorChanged (scale_factor : Rat) (new_inner_size : PhysicalSize)
deriving DecidableEq, Repr

/-- crate::event::DeviceEvent (the constructor this file emits). -/
inductive DeviceEvent where
  | ModifiersChanged (modifiers : ModifiersState)
deriving DecidableEq, Repr

/-- crate::event::Event (the constructors this file emits). -/
inductive Event where
  | WindowEvent (window_id : WindowId) (event : Winit.WindowEvent)
  | DeviceEvent (device_id : DeviceId) (event : Winit.DeviceEvent)
deriving DecidableEq, Repr

/-- One observable call made by a registered handler, in source order:
a backend canvas resize, a runner send_event, a runner request_redraw, or a
runner handle_unload. -/
inductive Action where
  | setCanvasSize (size : PhysicalSize)
  | sendEvent (e : Event)
  | requestRedraw (window_id : WindowId)
  | handleUnload
deriving DecidableEq, Repr

/-- The on_blur closure: sends Focused(false) for the registered window. -/
def on_blur (id : Nat) : List Action :=
  [Action.sendEvent (Event.WindowEvent ⟨id⟩ (WindowEvent.Focused false))]

/-- The on_focus closure: sends Focused(true) for the registered window. -/
def on_focus (id : Nat) : List Action :=
  [Action.sendEvent (Event.WindowEvent ⟨id⟩ (WindowEvent.Focused true))]

/-- The on_keyboard_press closure: sends a window-scoped KeyboardInput
(Pressed) with the dummy device id, then a DeviceEvent::ModifiersChanged
with the same modifiers. -/
def on_keyboard_press (id scancode : Nat) (virtual_keycode : Option VirtualKeyCode)
    (modifiers : ModifiersState) : List Action :=
  [Action.sendEvent (Event.WindowEvent ⟨id⟩
      (WindowEvent.KeyboardInput ⟨DeviceCoreId.dummy⟩
        ⟨scancode, ElementState.Pressed, virtual_keycode, modifiers⟩ false)),
   Action.sendEvent (Event.DeviceEvent ⟨DeviceCoreId.dummy⟩
      (DeviceEvent.ModifiersChanged modifiers))]

/-- The on_keyboard_release closure: sends a window-scoped KeyboardInput
(Released) with the dummy device id, then a DeviceEvent::ModifiersChanged
with the same modifiers. -/
def on_keyboard_release (id scancode : Nat) (virtual_keycode : Option VirtualKeyCode)
    (modifiers : ModifiersState) : List Action :=
  [Action.sendEvent (Event.WindowEvent ⟨id⟩
      (WindowEvent.KeyboardInput ⟨DeviceCoreId.dummy⟩
        ⟨scancode, ElementState.Released, virtual_keycode, modifiers⟩ false)),
   Action.sendEvent (Event.DeviceEvent ⟨DeviceCoreId.dummy⟩
      (DeviceEvent.ModifiersChanged modifiers))]

/-- The on_received_character closure. -/
def on_received_character (id : Nat) (char_code : Char) : List Action :=
  [Action.sendEvent (Event.WindowEvent ⟨id⟩ (WindowEvent.ReceivedCharacter char_code))]

/-- The on_cursor_leave closure. -/
def on_cursor_leave (id : Nat) (pointer_id : Int) : List Action :=
  [Action.sendEvent (Event.WindowEvent ⟨id⟩
      (WindowEvent.CursorLeft ⟨DeviceCoreId.pointer pointer_id⟩))]

/-- The on_cursor_enter closure. -/
def on_cursor_enter (id : Nat) (pointer_id : Int) : List Action :=
  [Action.sendEvent (Event.WindowEvent ⟨id⟩
      (WindowEvent.CursorEntered ⟨DeviceCoreId.pointer pointer_id⟩))]

/-- The on_cursor_move closure. -/
def on_cursor_move (id : Nat) (pointer_id : Int) (position : PhysicalPosition)
    (modifiers : ModifiersState) : List Action :=
  [Action.sendEvent (Event.WindowEvent ⟨id⟩
      (WindowEvent.CursorMoved ⟨DeviceCoreId.pointer pointer_id⟩ position modifiers))]

/-- The on_mouse_press closure. -/
def on_mouse_press (id : Nat) (pointer_id : Int) (button : MouseButton)
    (modifiers : ModifiersState) : List Action :=
  [Action.sendEvent (Event.WindowEvent ⟨id⟩
      (WindowEvent.MouseInput ⟨DeviceCoreId.pointer pointer_id⟩ ElementState.Pressed
        button modifiers))]

/-- The on_mouse_release closure. -/
def on_mouse_release (id : Nat) (pointer_id : Int) (button : MouseButton)
    (modifiers : ModifiersState) : List Action :=
  [Action.sendEvent (Event.WindowEvent ⟨id⟩
      (WindowEvent.MouseInput ⟨DeviceCoreId.pointer pointer_id⟩ ElementState.Released
        button modifiers))]

/-- The on_mouse_wheel closure: phase is the literal TouchPhase::Moved. -/
def on_mouse_wheel (id : Nat) (pointer_id : Int) (delta : MouseScrollDelta)
    (modifiers : ModifiersState) : List Action :=
  [Action.sendEvent (Event.WindowEvent ⟨id⟩
      (WindowEvent.MouseWheel ⟨DeviceCoreId.pointer pointer_id⟩ delta TouchPhase.Moved
        modifiers))]

/-- Snapshot of the backend environment as observed by the fullscreen-change
closure when it fires: the canvas raw pixel size, whether the canvas is
fullscreen, and the environment window size and scale factor. -/
structure FullscreenEnv where
  raw_width : Nat
  raw_height : Nat
  is_fullscreen : Bool
  window_size : LogicalSize
  scale_factor : Rat
deriving DecidableEq, Repr

/-- The on_fullscreen_change closure, with the captured mutable
intended_size threaded explicitly.  Returns the new intended_size and the
calls made: set_canvas_size, a Resized send_event, and a request_redraw. -/
def on_fullscreen_change (id : Nat) (env : FullscreenEnv) (intended_size : PhysicalSize) :
    PhysicalSize × List Action :=
  let res :=
    if env.is_fullscreen then
      let intended_size : PhysicalSize := ⟨env.raw_width, env.raw_height⟩
      (intended_size, env.window_size.to_physical env.scale_factor)
    else
      (intended_size, intended_size)
  (res.1, [Action.setCanvasSize res.2,
           Action.sendEvent (Event.WindowEvent ⟨id⟩ (WindowEvent.Resized res.2)),
           Action.requestRedraw ⟨id⟩])

/-- Snapshot of the backend environment as observed by the on_resize closure
when it fires. -/
structure ResizeEnv where
  window_size : LogicalSize
  scale_factor : Rat
deriving DecidableEq, Repr

/-- The on_resize closure: recomputes the scale factor and physical size and
sends a single ScaleFactorChanged event. -/
def on_resize (id : Nat) (env : ResizeEnv) : List Action :=
  [Action.sendEvent (Event.WindowEvent ⟨id⟩
      (WindowEvent.ScaleFactorChanged env.scale_factor
        (env.window_size.to_physical env.scale_factor)))]

/-- The on_before_unload closure: calls handle_unload on the runner and
nothing else. -/
def on_before_unload : List Action :=
  [Action.handleUnload]

/-- A raw notification from the event source adapter, with the parameters
that its registered closure receives (environment snapshots included). -/
inductive Notification where
  | blur
  | focus
  | keyboardPress (scancode : Nat) (virtual_keycode : Option VirtualKeyCode)
      (modifiers : ModifiersState)
  | keyboardRelease (scancode : Nat) (virtual_keycode : Option VirtualKeyCode)
      (modifiers : ModifiersState)
  | receivedCharacter (char_code : Char)
  | cursorLeave (pointer_id : Int)
  | cursorEnter (pointer_id : Int)
  | cursorMove (pointer_id : Int) (position : PhysicalPosition) (modifiers : ModifiersState)
  | mousePress (pointer_id : Int) (button : MouseButton) (modifiers : ModifiersState)
  | mouseRelease (pointer_id : Int) (button : MouseButton) (modifiers : ModifiersState)
  | mouseWheel (pointer_id : Int) (delta : MouseScrollDelta) (modifiers : ModifiersState)
  | fullscreenChange (env : FullscreenEnv)
  | resize (env : ResizeEnv)
  | beforeUnload
deriving DecidableEq, Repr

/-- The per-registration mutable state: only the fullscreen-change closure
captures mutable state (intended_size); every other closure captures just
the runner handle and the window id. -/
structure RegState where
  intended_size : PhysicalSize
deriving DecidableEq, Repr

/-- Registration initializes intended_size from the current raw canvas size
(raw.width(), raw.height()). -/
def register (raw_width raw_height : Nat) : RegState :=
  ⟨⟨raw_width, raw_height⟩⟩

/-- Dispatch one notification for the window registered with numeric id,
returning the updated registration state and the calls made. -/
def handle (id : Nat) (st : RegState) : Notification → RegState × List Action
  | Notification.blur => (st, on_blur id)
  | Notification.focus => (st, on_focus id)
  | Notification.keyboardPress sc vk m => (st, on_keyboard_press id sc vk m)
  | Notification.keyboardRelease sc vk m => (st, on_keyboard_release id sc vk m)
  | Notification.receivedCharacter c => (st, on_received_character id c)
  | Notification.cursorLeave p => (st, on_cursor_leave id p)
  | Notification.cursorEnter p => (st, on_cursor_enter id p)
  | Notification.cursorMove p pos m => (st, on_cursor_move id p pos m)
  | Notification.mousePress p b m => (st, on_mouse_press id p b m)
  | Notification.mouseRelease p b m => (st, on_mouse_release id p b m)
  | Notification.mouseWheel p d m => (st, on_mouse_wheel id p d m)
  | Notification.fullscreenChange env =>
      let r := on_fullscreen_change id env st.intended_size
      (⟨r.1⟩, r.2)
  | Notification.resize env => (st, on_resize id env)
  | Notification.beforeUnload => (st, on_before_unload)

/-- The intended_size after a sequence of fullscreen-change notifications. -/
def runFullscreen (id : Nat) (init : PhysicalSize) (envs : List FullscreenEnv) :
    PhysicalSize :=
  envs.foldl (fun sz env => (on_fullscreen_change id env sz).1) init

/-- Written from the spec's words: the size captured at the most recent
fullscreen-enter, or the initial (registration-time) size if fullscreen was
never entered. -/
def spec_lastEnterSize (init : PhysicalSize) (envs : List FullscreenEnv) : PhysicalSize :=
  envs.foldl
    (fun sz env => if env.is_fullscreen then ⟨env.raw_width, env.raw_height⟩ else sz) init

/-- Written from the spec's words: a physical size scaled by a scale factor
(each coordinate multiplied by the factor and rounded). -/
def spec_scaledSize (s : PhysicalSize) (factor : Rat) : PhysicalSize :=
  { width := (round ((s.width : Rat) * factor)).toNat,
    height := (round ((s.height : Rat) * factor)).toNat }

/-- Written from the spec's words: the intended_size transition a
notification causes — overwritten with the surface's current size by the
fullscreen-enter branch, unchanged by everything else. -/
def spec_intendedSizeTransition (sz : PhysicalSize) : Notification → PhysicalSize
  | Notification.fullscreenChange env =>
      if env.is_fullscreen then ⟨env.raw_width, env.raw_height⟩ else sz
  | _ => sz

/-- Counts the send_event calls carrying a WindowEvent::Resized. -/
def countSendResized (acts : List Action) : Nat :=
  (acts.filter fun a =>
    match a with
    | Action.sendEvent (Event.WindowEvent _ (WindowEvent.Resized _)) => true
    | _ => false).length

/-- Counts the request_redraw calls for the given window. -/
def countRequestRedraw (w : WindowId) (acts : List Action) : Nat :=
  (acts.filter fun a =>
    match a with
    | Action.requestRedraw w2 => w2 == w
    | _ => false).length

/-- Counts the send_event calls of any kind. -/
def countSendEvent (acts : List Action) : Nat :=
  (acts.filter fun a =>
    match a with
    | Action.sendEvent _ => true
    | _ => false).length

/-- The device ids carried by the events a handler sends, in order. -/
def actionDeviceIds (a : Action) : List DeviceId :=
  match a with
  | Action.sendEvent (Event.WindowEvent _ e) =>
      match e with
      | WindowEvent.KeyboardInput d _ _ => [d]
      | WindowEvent.CursorLeft d => [d]
      | WindowEvent.CursorEntered d => [d]
      | WindowEvent.CursorMoved d _ _ => [d]
      | WindowEvent.MouseInput d _ _ _ => [d]
      | WindowEvent.MouseWheel d _ _ _ => [d]
      | _ => []
  | Action.sendEvent (Event.DeviceEvent d _) => [d]
  | _ => []

/-- True unless the action sends a window-scoped event stamped with a window
id other than the given one. -/
def windowScopedOk (id : Nat) (a : Action) : Bool :=
  match a with
  | Action.sendEvent (Event.WindowEvent w _) => w.val == id
  | _ => true

/-- True unless the action sends a MouseWheel event whose phase is not
TouchPhase::Moved. -/
def wheelPhaseMoved (a : Action) : Bool :=
  match a with
  | Action.sendEvent (Event.WindowEvent _ (WindowEvent.MouseWheel _ _ phase _)) =>
      phase == TouchPhase.Moved
  | _ => true

/-- Modelled from the spec: runner::Shared's RunnerState (the runner module
is not under src/; only its callers are).  The listener is abstracted to a
trace: dispatched is the ordered list of events delivered to it so far. -/
structure RunnerState (ε : Type) where
  has_listener : Bool
  queued_events : List ε
  in_callback : Bool
  dispatched : List ε
deriving DecidableEq, Repr

/-- Modelled from the spec: transition back to idle drains the queue,
delivering the queued events to the listener in FIFO order. -/
def drain {ε : Type} (s : RunnerState ε) : RunnerState ε :=
  { s with queued_events := [], dispatched := s.dispatched ++ s.queued_events }

/-- Modelled from the spec: immediate dispatch — deliver the event to the
listener, then drain anything queued meanwhile. -/
def dispatch {ε : Type} (s : RunnerState ε) (e : ε) : RunnerState ε :=
  drain { s with dispatched := s.dispatched ++ [e] }

/-- Modelled from the spec: runner::Shared::send_event, the single event
ingestion point — if in_callback is true, append to queued_events and return
with no synchronous dispatch; otherwise dispatch immediately when a listener
exists, else queue for later delivery. -/
def send_event {ε : Type} (s : RunnerState ε) (e : ε) : RunnerState ε :=
  if s.in_callback then
    { s with queued_events := s.queued_events ++ [e] }
  else if s.has_listener then
    dispatch s e
  else
    { s with queued_events := s.queued_events ++ [e] }

/-- C1: each keyboard press or release notification with modifier state m
makes the handler forward exactly two events, in order: a window-scoped
KeyboardInput (Pressed for press, Released for release) carrying m, then a
DeviceEvent::ModifiersChanged carrying the same m. -/
theorem keyboard_press_release_emits_modifiers_after
    (id scancode : Nat) (virtual_keycode : Option VirtualKeyCode)
    (m : ModifiersState) :
    on_keyboard_press id scancode virtual_keycode m =
      [Action.sendEvent (Event.WindowEvent ⟨id⟩
          (WindowEvent.KeyboardInput ⟨DeviceCoreId.dummy⟩
            ⟨scancode, ElementState.Pressed, virtual_keycode, m⟩ false)),
       Action.sendEvent (Event.DeviceEvent ⟨DeviceCoreId.dummy⟩
          (DeviceEvent.ModifiersChanged m))]
    ∧ on_keyboard_release id scancode virtual_keycode m =
      [Action.sendEvent (Event.WindowEvent ⟨id⟩
          (WindowEvent.KeyboardInput ⟨DeviceCoreId.dummy⟩
            ⟨scancode, ElementState.Released, virtual_keycode, m⟩ false)),
       Action.sendEvent (Event.DeviceEvent ⟨DeviceCoreId.dummy⟩
          (DeviceEvent.ModifiersChanged m))] :=
  ⟨rfl, rfl⟩

theorem on_fullscreen_change_fst (id : Nat) (env : FullscreenEnv) (sz : PhysicalSize) :
    (on_fullscreen_change id env sz).1 =
      if env.is_fullscreen then ⟨env.raw_width, env.raw_height⟩ else sz := by
  by_cases h : env.is_fullscreen <;> simp [on_fullscreen_change, h]

theorem foldl_send_event_in_callback {ε : Type} (es : List ε) (s : RunnerState ε)
    (h : s.in_callback = true) :
    es.foldl send_event s = { s with queued_events := s.queued_events ++ es } := by
  induction es generalizing s with
  | nil => simp
  | cons e es ih =>
      rw [List.foldl_cons]
      have hse : send_event s e = { s with queued_events := s.queued_events ++ [e] } := by
        simp [send_event, h]
      rw [hse, ih { s with queued_events := s.queued_events ++ [e] } h]
      simp

/-- C2 counterexample: with the canvas exiting fullscreen, captured size
800 by 600 and active scale factor 2, the handler resizes the canvas to the
captured size and the emitted Resized event carries exactly that captured
size, while the captured size scaled by the active factor would be 1600 by
1200, a different size — so the Resized event does not carry the captured
size scaled by the active scale factor. -/
theorem fullscreen_exit_resized_unscaled_counterexample :
    (on_fullscreen_change 1 ⟨1920, 1080, false, ⟨1920, 1080⟩, 2⟩ ⟨800, 600⟩).2 =
      [Action.setCanvasSize ⟨800, 600⟩,
       Action.sendEvent (Event.WindowEvent ⟨1⟩ (WindowEvent.Resized ⟨800, 600⟩)),
       Action.requestRedraw ⟨1⟩]
    ∧ spec_scaledSize ⟨800, 600⟩ 2 = ⟨1600, 1200⟩
    ∧ (⟨800, 600⟩ : PhysicalSize) ≠ ⟨1600, 1200⟩ := by
  refine ⟨rfl, ?_, by decide⟩
  show spec_scaledSize ⟨800, 600⟩ 2 = ⟨1600, 1200⟩
  simp only [spec_scaledSize, PhysicalSize.mk.injEq]
  norm_num [round_eq]
  decide

/-- C2 (amended): on every fullscreen-exit notification the handler resizes
the canvas to exactly the previously captured intended size and the emitted
WindowEvent::Resized carries exactly that captured size (no scale-factor
conversion is applied on exit); across any sequence of fullscreen-change
notifications the captured size equals the raw surface size at the most
recent fullscreen-enter, or the registration-time size if fullscreen was
never entered. -/
theorem fullscreen_exit_restores_captured_size (id : Nat) (env : FullscreenEnv)
    (sz : PhysicalSize) (h : env.is_fullscreen = false) :
    (on_fullscreen_change id env sz).2 =
      [Action.setCanvasSize sz,
       Action.sendEvent (Event.WindowEvent ⟨id⟩ (WindowEvent.Resized sz)),
       Action.requestRedraw ⟨id⟩]
    ∧ ∀ (init : PhysicalSize) (envs : List FullscreenEnv),
        runFullscreen id init envs = spec_lastEnterSize init envs := by
  constructor
  · simp [on_fullscreen_change, h]
  · intro init envs
    induction envs generalizing init with
    | nil => rfl
    | cons e es ih =>
        show runFullscreen id ((on_fullscreen_change id e init).1) es =
          spec_lastEnterSize
            (if e.is_fullscreen then ⟨e.raw_width, e.raw_height⟩ else init) es
        rw [on_fullscreen_change_fst]
        exact ih _

/-- C2 witness: a concrete fullscreen-exit with captured size 800 by 600
emits exactly the restore actions for that size. -/
theorem fullscreen_exit_restores_captured_size_witness :
    (on_fullscreen_change 7 ⟨1920, 1080, false, ⟨1920, 1080⟩, 2⟩ ⟨800, 600⟩).2 =
      [Action.setCanvasSize ⟨800, 600⟩,
       Action.sendEvent (Event.WindowEvent ⟨7⟩ (WindowEvent.Resized ⟨800, 600⟩)),
       Action.requestRedraw ⟨7⟩] :=
  (fullscreen_exit_restores_captured_size 7 ⟨1920, 1080, false, ⟨1920, 1080⟩, 2⟩
    ⟨800, 600⟩ rfl).1

/-- C3: on every fullscreen-enter notification the handler first stores the
surface's current raw size as the new intended size, then resizes the canvas
to the environment's window size converted through the current scale factor;
and in either branch the handler emits exactly one Resized send_event
(carrying the size the canvas was set to) and exactly one request_redraw for
the registered window. -/
theorem fullscreen_enter_captures_and_resizes (id : Nat) (env : FullscreenEnv)
    (sz : PhysicalSize) (h : env.is_fullscreen = true) :
    (on_fullscreen_change id env sz).1 = ⟨env.raw_width, env.raw_height⟩
    ∧ (on_fullscreen_change id env sz).2 =
        [Action.setCanvasSize (env.window_size.to_physical env.scale_factor),
         Action.sendEvent (Event.WindowEvent ⟨id⟩
            (WindowEvent.Resized (env.window_size.to_physical env.scale_factor))),
         Action.requestRedraw ⟨id⟩]
    ∧ ∀ (env2 : FullscreenEnv) (sz2 : PhysicalSize),
        countSendResized (on_fullscreen_change id env2 sz2).2 = 1
        ∧ countRequestRedraw ⟨id⟩ (on_fullscreen_change id env2 sz2).2 = 1 := by
  refine ⟨?_, ?_, ?_⟩
  · simp [on_fullscreen_change, h]
  · simp [on_fullscreen_change, h]
  · intro env2 sz2
    by_cases h2 : env2.is_fullscreen <;>
      simp [on_fullscreen_change, h2, countSendResized, countRequestRedraw, List.filter]

/-- C3 witness: a concrete fullscreen-enter captures the raw size 640 by 480
as the new intended size. -/
theorem fullscreen_enter_captures_and_resizes_witness :
    (on_fullscreen_change 7 ⟨640, 480, true, ⟨1920, 1080⟩, 1⟩ ⟨800, 600⟩).1 =
      ⟨640, 480⟩ :=
  (fullscreen_enter_captures_and_resizes 7 ⟨640, 480, true, ⟨1920, 1080⟩, 1⟩
    ⟨800, 600⟩ rfl).1

/-- C4: every plain resize notification forwards exactly one event, a
ScaleFactorChanged carrying the recomputed scale factor and the recomputed
physical size, and no Resized event is emitted on this path. -/
theorem resize_emits_single_scale_factor_changed (id : Nat) (env : ResizeEnv) :
    on_resize id env =
      [Action.sendEvent (Event.WindowEvent ⟨id⟩
          (WindowEvent.ScaleFactorChanged env.scale_factor
            (env.window_size.to_physical env.scale_factor)))]
    ∧ countSendResized (on_resize id env) = 0 :=
  ⟨rfl, rfl⟩

/-- C5: every sequence of send_event calls made while in_callback is true is
appended to the queue with no synchronous dispatch (the dispatched trace is
unchanged), and the later drain delivers the queue to the listener in
exactly the order the send_event calls were made (FIFO). -/
theorem send_event_in_callback_fifo {ε : Type} (s : RunnerState ε) (es : List ε)
    (h : s.in_callback = true) :
    (es.foldl send_event s).queued_events = s.queued_events ++ es
    ∧ (es.foldl send_event s).dispatched = s.dispatched
    ∧ (drain (es.foldl send_event s)).dispatched = s.dispatched ++ s.queued_events ++ es := by
  rw [foldl_send_event_in_callback es s h]
  refine ⟨rfl, rfl, ?_⟩
  simp [drain]

/-- C5 witness: from a state inside a callback with event 0 queued, sending
1 then 2 queues them behind 0 and the drain dispatches 0, 1, 2 in order. -/
theorem send_event_in_callback_fifo_witness :
    (([1, 2] : List Nat).foldl send_event ⟨true, [0], true, []⟩).queued_events =
        [0] ++ [1, 2]
    ∧ (([1, 2] : List Nat).foldl send_event
        (⟨true, [0], true, []⟩ : RunnerState Nat)).dispatched = []
    ∧ (drain (([1, 2] : List Nat).foldl send_event
        (⟨true, [0], true, []⟩ : RunnerState Nat))).dispatched = [] ++ [0] ++ [1, 2] :=
  send_event_in_callback_fifo ⟨true, [0], true, []⟩ [1, 2] rfl

/-- C6: the unload notification handler calls handle_unload on the runner
and makes no send_event call. -/
theorem unload_routes_to_handle_unload :
    on_before_unload = [Action.handleUnload]
    ∧ countSendEvent on_before_unload = 0 :=
  ⟨rfl, rfl⟩

/-- C7: both events of each keyboard press or release carry the same single
sentinel dummy device id, the sentinel is unequal to every pointer-derived
device id, and every pointer-originated event carries the device id built
from the adapter-supplied pointer id. -/
theorem device_id_sentinel_and_pointer (id scancode : Nat)
    (vk : Option VirtualKeyCode) (m : ModifiersState) (p : Int)
    (pos : PhysicalPosition) (b : MouseButton) (d : MouseScrollDelta) :
    ((on_keyboard_press id scancode vk m).flatMap actionDeviceIds =
        [⟨DeviceCoreId.dummy⟩, ⟨DeviceCoreId.dummy⟩])
    ∧ ((on_keyboard_release id scancode vk m).flatMap actionDeviceIds =
        [⟨DeviceCoreId.dummy⟩, ⟨DeviceCoreId.dummy⟩])
    ∧ ((⟨DeviceCoreId.dummy⟩ : DeviceId) ≠ ⟨DeviceCoreId.pointer p⟩)
    ∧ ((on_cursor_enter id p).flatMap actionDeviceIds = [⟨DeviceCoreId.pointer p⟩])
    ∧ ((on_cursor_leave id p).flatMap actionDeviceIds = [⟨DeviceCoreId.pointer p⟩])
    ∧ ((on_cursor_move id p pos m).flatMap actionDeviceIds = [⟨DeviceCoreId.pointer p⟩])
    ∧ ((on_mouse_press id p b m).flatMap actionDeviceIds = [⟨DeviceCoreId.pointer p⟩])
    ∧ ((on_mouse_release id p b m).flatMap actionDeviceIds = [⟨DeviceCoreId.pointer p⟩])
    ∧ ((on_mouse_wheel id p d m).flatMap actionDeviceIds = [⟨DeviceCoreId.pointer p⟩]) := by
  refine ⟨rfl, rfl, ?_, rfl, rfl, rfl, rfl, rfl, rfl⟩
  intro hcontra
  exact DeviceCoreId.noConfusion (congrArg DeviceId.id hcontra)

/-- C7 witness: at pointer id 5 the sentinel differs from the pointer-built
device id and the keyboard press events both carry the sentinel. -/
theorem device_id_sentinel_and_pointer_witness :
    ((on_keyboard_press 1 30 (some 4) ⟨true, false, false, false⟩).flatMap
        actionDeviceIds = [⟨DeviceCoreId.dummy⟩, ⟨DeviceCoreId.dummy⟩])
    ∧ ((⟨DeviceCoreId.dummy⟩ : DeviceId) ≠ ⟨DeviceCoreId.pointer 5⟩) :=
  ⟨(device_id_sentinel_and_pointer 1 30 (some 4) ⟨true, false, false, false⟩ 5
      ⟨0, 0⟩ MouseButton.Left (MouseScrollDelta.LineDelta 0 1)).1,
   (device_id_sentinel_and_pointer 1 30 (some 4) ⟨true, false, false, false⟩ 5
      ⟨0, 0⟩ MouseButton.Left (MouseScrollDelta.LineDelta 0 1)).2.2.1⟩

/-- C8: every window-scoped event any registered handler forwards to
send_event is stamped with exactly the window id supplied at registration,
for every notification kind and all parameters. -/
theorem events_stamped_with_registration_id (id scancode : Nat)
    (vk : Option VirtualKeyCode) (m : ModifiersState) (c : Char) (p : Int)
    (pos : PhysicalPosition) (b : MouseButton) (d : MouseScrollDelta)
    (fenv : FullscreenEnv) (renv : ResizeEnv) (sz : PhysicalSize) :
    ((on_blur id).all (windowScopedOk id) = true)
    ∧ ((on_focus id).all (windowScopedOk id) = true)
    ∧ ((on_keyboard_press id scancode vk m).all (windowScopedOk id) = true)
    ∧ ((on_keyboard_release id scancode vk m).all (windowScopedOk id) = true)
    ∧ ((on_received_character id c).all (windowScopedOk id) = true)
    ∧ ((on_cursor_leave id p).all (windowScopedOk id) = true)
    ∧ ((on_cursor_enter id p).all (windowScopedOk id) = true)
    ∧ ((on_cursor_move id p pos m).all (windowScopedOk id) = true)
    ∧ ((on_mouse_press id p b m).all (windowScopedOk id) = true)
    ∧ ((on_mouse_release id p b m).all (windowScopedOk id) = true)
    ∧ ((on_mouse_wheel id p d m).all (windowScopedOk id) = true)
    ∧ (((on_fullscreen_change id fenv sz).2).all (windowScopedOk id) = true)
    ∧ ((on_resize id renv).all (windowScopedOk id) = true)
    ∧ (on_before_unload.all (windowScopedOk id) = true) := by
  refine ⟨?_, ?_, ?_, ?_, ?_, ?_, ?_, ?_, ?_, ?_, ?_, ?_, ?_, ?_⟩ <;>
    simp [on_blur, on_focus, on_keyboard_press, on_keyboard_release,
      on_received_character, on_cursor_leave, on_cursor_enter, on_cursor_move,
      on_mouse_press, on_mouse_release, on_mouse_wheel, on_fullscreen_change,
      on_resize, on_before_unload, windowScopedOk]

/-- C9: the intended size is initialized at registration from the surface's
current raw size, and under every notification the registration state
evolves exactly by the transition that overwrites the intended size with the
surface's current size on fullscreen-enter and leaves it unchanged in every
other case (fullscreen-exit included). -/
theorem intended_size_lifecycle (id raw_width raw_height : Nat) (st : RegState)
    (n : Notification) :
    (register raw_width raw_height).intended_size = ⟨raw_width, raw_height⟩
    ∧ (handle id st n).1.intended_size = spec_intendedSizeTransition st.intended_size n := by
  refine ⟨rfl, ?_⟩
  cases n <;> simp [handle, spec_intendedSizeTransition, on_fullscreen_change_fst]

/-- C10: every MouseWheel event the wheel handler forwards carries phase
TouchPhase::Moved, for every pointer id, delta and modifier state, and no
other phase value appears in its output. -/
theorem wheel_phase_always_moved (id : Nat) (p : Int) (d : MouseScrollDelta)
    (m : ModifiersState) :
    on_mouse_wheel id p d m =
      [Action.sendEvent (Event.WindowEvent ⟨id⟩
          (WindowEvent.MouseWheel ⟨DeviceCoreId.pointer p⟩ d TouchPhase.Moved m))]
    ∧ (on_mouse_wheel id p d m).all wheelPhaseMoved = true := by
  refine ⟨rfl, ?_⟩
  simp [on_mouse_wheel, wheelPhaseMoved]

end Winit
